import Mathlib

/-!
Shallow embedding of the camcast media gateway (Go sources `main.go`,
`server/rtsp.go`, `server/signaling.go`) and verification of the frozen
claims about it.

Bytes are modelled as `Nat` (Go `byte` values are `< 256`; where the Go code
computes `int(b0)<<8 | int(b1)` on bytes this equals `b0 * 256 + b1`).
Calls into external libraries (gortsplib stream creation and packet writes,
websocket writes) are modelled by their effect on the server state: stream
creation is given a fresh generation number, and every
`stream.WritePacketRTP(media, packet)` call is recorded in a ghost `sent`
log; `stream.Initialize()` and the downstream writes are modelled as
succeeding (their failures are external I/O conditions).
-/

namespace Camcast

/-- `rtp.Packet`: sequence number, timestamp, payload type and payload bytes. -/
structure Packet where
  sequenceNumber : Nat := 0
  timestamp : Nat := 0
  payloadType : Nat := 0
  payload : List Nat
deriving Repr, DecidableEq

/-- `format.H264` (the fields the gateway sets). -/
structure H264Format where
  payloadTyp : Nat
  packetizationMode : Nat
  sps : List Nat
  pps : List Nat
deriving Repr, DecidableEq

/-- `format.Opus` (the fields the gateway sets). -/
structure OpusFormat where
  payloadTyp : Nat
  channelCount : Nat
deriving Repr, DecidableEq

/-- A `format.Format` stored in a media descriptor. -/
inductive Format
  | h264 (f : H264Format)
  | opus (f : OpusFormat)
deriving Repr, DecidableEq

/-- `description.MediaType`. -/
inductive MediaType
  | video
  | audio
deriving Repr, DecidableEq

/-- `description.Media`: media type plus format list. -/
structure Media where
  type : MediaType
  formats : List Format
deriving Repr, DecidableEq

/-- `description.Session`: the list of media descriptors. -/
structure SessionDesc where
  medias : List Media
deriving Repr, DecidableEq

/-- `gortsplib.ServerStream`: identified by a ghost generation number so that
streams of different initialization cycles are distinguishable, plus the
session description it was created with. -/
structure ServerStream where
  gen : Nat
  desc : SessionDesc
deriving Repr, DecidableEq

/-- Ghost record of one `stream.WritePacketRTP(media, packet)` call: the
generation of the stream written to, the media descriptor passed, and the
packet. -/
structure Sent where
  gen : Nat
  media : Media
  packet : Packet
deriving Repr, DecidableEq

/-- The `RTSPServer` struct of `server/rtsp.go` (mutex dropped: operations are
modelled as atomic state transformers), extended with three ghost fields:
`nextGen` allocates stream generation numbers, `closed` records the
generations on which `stream.Close()` was called, and `sent` logs downstream
packet writes. -/
structure RTSPServer where
  stream : Option ServerStream
  videoMedia : Option Media
  audioMedia : Option Media
  videoFormat : Option H264Format
  initialized : Bool
  videoPayload : Nat
  audioPayload : Nat
  sps : List Nat
  pps : List Nat
  spsReceived : Bool
  ppsReceived : Bool
  debug : Bool
  videoPacketCnt : Nat
  nextGen : Nat
  closed : List Nat
  sent : List Sent
deriving Repr, DecidableEq

/-- `h264.NALUTypeSPS` = 7. -/
def NALUTypeSPS : Nat := 7

/-- `h264.NALUTypePPS` = 8. -/
def NALUTypePPS : Nat := 8

/-- `payload[0] & 0x1F`: the low 5 bits of a byte, i.e. `b % 32`. -/
def nalTypeOf (b : Nat) : Nat := b % 32

/-- `payload[0]`: the first byte of a byte slice (0 for the empty slice; the
code only reads it behind a nonemptiness guard). -/
def firstByte (l : List Nat) : Nat := l.headD 0

/-- `NewRTSPServer`: fresh server, all stream state zero. -/
def NewRTSPServer (debug : Bool) : RTSPServer :=
  { stream := none
    videoMedia := none
    audioMedia := none
    videoFormat := none
    initialized := false
    videoPayload := 0
    audioPayload := 0
    sps := []
    pps := []
    spsReceived := false
    ppsReceived := false
    debug := debug
    videoPacketCnt := 0
    nextGen := 0
    closed := []
    sent := [] }

/-- `InitStream(videoPayloadType, audioPayloadType)`: if already initialized,
tear the previous cycle down (close and discard the stream, clear captured
parameters, reset the packet counter), then store the payload types. -/
def InitStream (rs : RTSPServer) (videoPayloadType audioPayloadType : Nat) :
    RTSPServer :=
  let rs1 :=
    if rs.initialized then
      { rs with
        stream := none
        closed :=
          match rs.stream with
          | some st => rs.closed ++ [st.gen]
          | none => rs.closed
        initialized := false
        spsReceived := false
        ppsReceived := false
        sps := []
        pps := []
        videoPacketCnt := 0 }
    else rs
  { rs1 with
    videoPayload := videoPayloadType
    audioPayload := audioPayloadType }

/-- `initializeStream`: build the H.264 and Opus formats from the captured
parameters, build the two media descriptors and the session description,
create the stream (fresh generation) and mark the server initialized.
`stream.Initialize()` is modelled as succeeding. -/
def initializeStream (rs : RTSPServer) : RTSPServer :=
  let videoFormat : H264Format :=
    { payloadTyp := rs.videoPayload
      packetizationMode := 1
      sps := rs.sps
      pps := rs.pps }
  let audioFormat : OpusFormat :=
    { payloadTyp := rs.audioPayload, channelCount := 2 }
  let videoMedia : Media :=
    { type := MediaType.video, formats := [Format.h264 videoFormat] }
  let audioMedia : Media :=
    { type := MediaType.audio, formats := [Format.opus audioFormat] }
  let desc : SessionDesc := { medias := [videoMedia, audioMedia] }
  let stream : ServerStream := { gen := rs.nextGen, desc := desc }
  { rs with
    videoFormat := some videoFormat
    videoMedia := some videoMedia
    audioMedia := some audioMedia
    stream := some stream
    nextGen := rs.nextGen + 1
    initialized := true }

/-- `parseSTAPA`: walk a STAP-A payload; each embedded NAL unit is preceded by
a 2-byte big-endian length. Stop when fewer than 2 bytes remain, or the
declared length is zero or exceeds the remaining bytes; capture the first
SPS-typed and first PPS-typed unit not yet received. -/
def parseSTAPA (rs : RTSPServer) (payload : List Nat) : RTSPServer :=
  match payload with
  | b0 :: b1 :: rest =>
    let nalSize := b0 * 256 + b1
    if rest.length < nalSize ∨ nalSize < 1 then rs
    else
      let nalType := nalTypeOf (firstByte rest)
      let nalData := rest.take nalSize
      let rs1 :=
        if nalType = NALUTypeSPS then
          if rs.spsReceived then rs
          else { rs with sps := nalData, spsReceived := true }
        else if nalType = NALUTypePPS then
          if rs.ppsReceived then rs
          else { rs with pps := nalData, ppsReceived := true }
        else rs
      parseSTAPA rs1 (rest.drop nalSize)
  | _ => rs
termination_by payload.length
decreasing_by
  simp only [List.length_cons, List.length_drop]
  omega

/-- `extractSPSPPS`: inspect the NAL type in the low 5 bits of the leading
byte; capture a bare SPS or PPS packet (whole payload) if not yet received;
descend into STAP-A (type 24) payloads. -/
def extractSPSPPS (rs : RTSPServer) (payload : List Nat) : RTSPServer :=
  match payload with
  | [] => rs
  | b :: rest =>
    let nalType := nalTypeOf b
    if nalType = NALUTypeSPS then
      if rs.spsReceived then rs
      else { rs with sps := payload, spsReceived := true }
    else if nalType = NALUTypePPS then
      if rs.ppsReceived then rs
      else { rs with pps := payload, ppsReceived := true }
    else if nalType = 24 then parseSTAPA rs rest
    else rs

/-- The first locked section of `WriteVideoPacket`: while uninitialized,
attempt parameter extraction, then initialize the stream once both blobs are
present. -/
def videoPhase1 (rs : RTSPServer) (payload : List Nat) : RTSPServer :=
  if !rs.initialized then
    let rs0 := extractSPSPPS rs payload
    if rs0.spsReceived && rs0.ppsReceived && !rs0.initialized then
      initializeStream rs0
    else rs0
  else rs

/-- `WriteVideoPacket`: drop empty payloads; run the extraction/initialization
phase; then, if initialized with a live stream and video media (the snapshot
taken under the lock), count and forward the packet (the downstream write is
modelled as succeeding, `none` = nil error). -/
def WriteVideoPacket (rs : RTSPServer) (packet : Packet) :
    RTSPServer × Option String :=
  if packet.payload.isEmpty then (rs, none)
  else
    let rs1 := videoPhase1 rs packet.payload
    match rs1.stream, rs1.videoMedia, rs1.initialized with
    | some st, some vm, true =>
      let rs2 := { rs1 with videoPacketCnt := rs1.videoPacketCnt + 1 }
      ({ rs2 with
          sent := rs2.sent ++ [{ gen := st.gen, media := vm, packet := packet }] },
        none)
    | _, _, _ => (rs1, none)

/-- `WriteAudioPacket`: forward to the audio media if initialized with a live
stream, else a silent no-op returning nil. -/
def WriteAudioPacket (rs : RTSPServer) (packet : Packet) :
    RTSPServer × Option String :=
  match rs.stream, rs.audioMedia, rs.initialized with
  | some st, some am, true =>
    ({ rs with
        sent := rs.sent ++ [{ gen := st.gen, media := am, packet := packet }] },
      none)
  | _, _, _ => (rs, none)

/-- RTSP response status codes used by the handlers. -/
inductive StatusCode
  | statusOK
  | statusNotFound
deriving Repr, DecidableEq

/-- `OnDescribe`: not-found while not initialized or no stream; otherwise ok
with the stream. -/
def OnDescribe (rs : RTSPServer) :
    StatusCode × Option ServerStream × Option String :=
  if ¬rs.initialized ∨ rs.stream = none then
    (StatusCode.statusNotFound, none, none)
  else (StatusCode.statusOK, rs.stream, none)

/-- `OnSetup`: not-found while not initialized or no stream; otherwise ok with
the stream. -/
def OnSetup (rs : RTSPServer) :
    StatusCode × Option ServerStream × Option String :=
  if ¬rs.initialized ∨ rs.stream = none then
    (StatusCode.statusNotFound, none, none)
  else (StatusCode.statusOK, rs.stream, none)

/-- `OnPlay`: always ok. -/
def OnPlay (_rs : RTSPServer) : StatusCode × Option String :=
  (StatusCode.statusOK, none)

/-- `OnRecord`: always ok. -/
def OnRecord (_rs : RTSPServer) : StatusCode × Option String :=
  (StatusCode.statusOK, none)

/-- `OnPause`: always ok. -/
def OnPause (_rs : RTSPServer) : StatusCode × Option String :=
  (StatusCode.statusOK, none)

/-- `OnAnnounce`: always ok. -/
def OnAnnounce (_rs : RTSPServer) : StatusCode × Option String :=
  (StatusCode.statusOK, none)

/-! ### Signaling (`server/signaling.go`) -/

/-- `SignalMessage`: the signaling envelope. The candidate payload is opaque
(raw JSON), modelled as a string. -/
structure SignalMessage where
  type : String
  sdp : String := ""
  candidate : String := ""
deriving Repr, DecidableEq

/-- One turn of the `HandleWebSocket` read loop on an already-parsed message.
The offer handler returns `some answer` on success and `none` on failure (the
Go handler returns `(answer, err)`); the ICE handler result is only logged.
Returns the replies written to the connection, the offer-handler invocations
(the SDP arguments), and the candidate-handler invocations (the candidate
arguments). An unknown message type matches no switch case. -/
def handleSignalMessage (onOffer : Option (String → Option String))
    (onICE : Option (String → Option Unit)) (msg : SignalMessage) :
    List SignalMessage × List String × List String :=
  if msg.type = "offer" then
    match onOffer with
    | none => ([], [], [])
    | some handler =>
      match handler msg.sdp with
      | none => ([], [msg.sdp], [])
      | some answer =>
        ([{ type := "answer", sdp := answer }], [msg.sdp], [])
  else if msg.type = "candidate" then
    match onICE with
    | none => ([], [], [])
    | some handler =>
      let _ := handler msg.candidate
      ([], [], [msg.candidate])
  else ([], [], [])

/-! ### Track handler (`main.go`) -/

/-- `webrtc.RTPCodecType` restricted to the two kinds the callback handles. -/
inductive TrackKind
  | video
  | audio
deriving Repr, DecidableEq

/-- `server.TrackInfo`. -/
structure TrackInfo where
  kind : TrackKind
  payloadType : Nat
  mimeType : String := ""
deriving Repr, DecidableEq

/-- The closure state of the `SetTrackHandler` callback in `main.go`. -/
structure TrackState where
  videoPayloadType : Nat
  audioPayloadType : Nat
  hasVideo : Bool
  hasAudio : Bool
deriving Repr, DecidableEq

/-- Initial closure state of `main`. -/
def initialTrackState : TrackState :=
  { videoPayloadType := 0, audioPayloadType := 0
    hasVideo := false, hasAudio := false }

/-- The `SetTrackHandler` callback of `main.go`: record the track's payload
type; once video is present, substitute the fixed fallback audio payload type
111 if audio has not arrived, call `InitStream`, and reset the pair flags. -/
def trackCallback (ts : TrackState) (rs : RTSPServer) (info : TrackInfo) :
    TrackState × RTSPServer :=
  let ts1 :=
    match info.kind with
    | TrackKind.video =>
      { ts with videoPayloadType := info.payloadType, hasVideo := true }
    | TrackKind.audio =>
      { ts with audioPayloadType := info.payloadType, hasAudio := true }
  if ts1.hasVideo then
    let ts2 :=
      if !ts1.hasAudio then { ts1 with audioPayloadType := 111 } else ts1
    let rs1 := InitStream rs ts2.videoPayloadType ts2.audioPayloadType
    ({ ts2 with hasVideo := false, hasAudio := false }, rs1)
  else (ts1, rs)

/-! ### Derived analysis helpers

These are not separate Go functions; they name, in terms of the embedded
code, the walk structure of `parseSTAPA` and the packet classifications that
the claims quantify over. -/

/-- Classifier: a bare SPS packet (nonempty payload whose leading byte's low
5 bits denote SPS). -/
def IsSPSNAL (payload : List Nat) : Prop :=
  payload ≠ [] ∧ nalTypeOf (firstByte payload) = NALUTypeSPS

/-- Classifier: a bare PPS packet. -/
def IsPPSNAL (payload : List Nat) : Prop :=
  payload ≠ [] ∧ nalTypeOf (firstByte payload) = NALUTypePPS

/-- Classifier: a frame packet — nonempty payload whose NAL type is none of
SPS, PPS, STAP-A. -/
def IsFrameNAL (payload : List Nat) : Prop :=
  payload ≠ [] ∧ nalTypeOf (firstByte payload) ≠ NALUTypeSPS ∧
    nalTypeOf (firstByte payload) ≠ NALUTypePPS ∧
    nalTypeOf (firstByte payload) ≠ 24

/-- The per-unit capture step of `parseSTAPA` (the `switch nalType` body),
applied to one complete embedded NAL unit. -/
def captureUnit (rs : RTSPServer) (u : List Nat) : RTSPServer :=
  let nalType := nalTypeOf (firstByte u)
  if nalType = NALUTypeSPS then
    if rs.spsReceived then rs
    else { rs with sps := u, spsReceived := true }
  else if nalType = NALUTypePPS then
    if rs.ppsReceived then rs
    else { rs with pps := u, ppsReceived := true }
  else rs

/-- The complete embedded NAL units that the `parseSTAPA` walk visits before
it stops (same walk, state-independent). -/
def unitsOf (payload : List Nat) : List (List Nat) :=
  match payload with
  | b0 :: b1 :: rest =>
    let nalSize := b0 * 256 + b1
    if rest.length < nalSize ∨ nalSize < 1 then []
    else rest.take nalSize :: unitsOf (rest.drop nalSize)
  | _ => []
termination_by payload.length
decreasing_by
  simp only [List.length_cons, List.length_drop]
  omega

/-- A STAP-A payload is malformed when the walk hits a truncated length field
(exactly one byte left), a zero declared length, or a declared length
exceeding the remaining bytes. Running off the end with zero bytes left is
normal termination, not malformation. -/
def stapaMalformed (payload : List Nat) : Bool :=
  match payload with
  | [] => false
  | [_] => true
  | b0 :: b1 :: rest =>
    let nalSize := b0 * 256 + b1
    if rest.length < nalSize ∨ nalSize < 1 then true
    else stapaMalformed (rest.drop nalSize)
termination_by payload.length
decreasing_by
  simp only [List.length_cons, List.length_drop]
  omega

/-- 2-byte big-endian length followed by the unit bytes: the STAP-A encoding
of one embedded NAL unit. -/
def encodeNAL (u : List Nat) : List Nat :=
  u.length / 256 :: u.length % 256 :: u

/-- A valid STAP-A payload: concatenation of encoded units. -/
def encodeSTAPA (units : List (List Nat)) : List Nat :=
  (units.map encodeNAL).flatten

/-- Validity of the embedded units of an aggregation packet: each unit is
nonempty and its length fits the 2-byte field. -/
def ValidUnits (units : List (List Nat)) : Prop :=
  ∀ u ∈ units, u ≠ [] ∧ u.length < 65536

/-- Boolean unit classifier: SPS-typed unit. -/
def isSPSUnit (u : List Nat) : Bool := decide (nalTypeOf (firstByte u) = NALUTypeSPS)

/-- Boolean unit classifier: PPS-typed unit. -/
def isPPSUnit (u : List Nat) : Bool := decide (nalTypeOf (firstByte u) = NALUTypePPS)

/-- Does a `WriteVideoPacket` call on this payload complete initialization
(nonempty payload and both blobs present after extraction)? This is the
condition under which the call itself flips the session to Initialized. -/
def completesInit (rs : RTSPServer) (payload : List Nat) : Bool :=
  !payload.isEmpty &&
    ((extractSPSPPS rs payload).spsReceived &&
      (extractSPSPPS rs payload).ppsReceived)

/-! ### Operation traces over the gateway -/

/-- One gateway operation (the calls the composition root makes). -/
inductive Op
  | initStream (videoPT audioPT : Nat)
  | writeVideo (packet : Packet)
  | writeAudio (packet : Packet)
deriving Repr, DecidableEq

/-- Apply one operation to the server state. -/
def stepOp (rs : RTSPServer) (op : Op) : RTSPServer :=
  match op with
  | Op.initStream v a => InitStream rs v a
  | Op.writeVideo p => (WriteVideoPacket rs p).1
  | Op.writeAudio p => (WriteAudioPacket rs p).1

/-- Apply a sequence of operations. -/
def runOps (rs : RTSPServer) (ops : List Op) : RTSPServer :=
  ops.foldl stepOp rs

/-- Generation bookkeeping invariant: every logged send and the live stream
use generations below the allocator. Holds for every reachable state. -/
def GenInv (rs : RTSPServer) : Prop :=
  (∀ e ∈ rs.sent, e.gen < rs.nextGen) ∧
    ∀ st, rs.stream = some st → st.gen < rs.nextGen

/-- All fields except the captured-parameter fields (`sps`, `pps`,
`spsReceived`, `ppsReceived`) agree between two states. -/
def SameNonParams (a b : RTSPServer) : Prop :=
  b.stream = a.stream ∧ b.videoMedia = a.videoMedia ∧
    b.audioMedia = a.audioMedia ∧ b.videoFormat = a.videoFormat ∧
    b.initialized = a.initialized ∧ b.videoPayload = a.videoPayload ∧
    b.audioPayload = a.audioPayload ∧ b.debug = a.debug ∧
    b.videoPacketCnt = a.videoPacketCnt ∧ b.nextGen = a.nextGen ∧
    b.closed = a.closed ∧ b.sent = a.sent

/-! ### Lemmas about the STAP-A walk -/

theorem sameNonParams_refl (a : RTSPServer) : SameNonParams a a := by
  unfold SameNonParams
  repeat constructor

theorem sameNonParams_trans {a b c : RTSPServer}
    (h1 : SameNonParams a b) (h2 : SameNonParams b c) : SameNonParams a c := by
  unfold SameNonParams at h1 h2 ⊢
  obtain ⟨e1, e2, e3, e4, e5, e6, e7, e8, e9, e10, e11, e12⟩ := h1
  obtain ⟨f1, f2, f3, f4, f5, f6, f7, f8, f9, f10, f11, f12⟩ := h2
  exact ⟨f1.trans e1, f2.trans e2, f3.trans e3, f4.trans e4, f5.trans e5,
    f6.trans e6, f7.trans e7, f8.trans e8, f9.trans e9, f10.trans e10,
    f11.trans e11, f12.trans e12⟩

theorem firstByte_take (l : List Nat) (n : Nat) (hn : 1 ≤ n) :
    firstByte (l.take n) = firstByte l := by
  unfold firstByte
  cases l with
  | nil => simp
  | cons a t =>
    cases n with
    | zero => omega
    | succ m => simp

/-- The capture step inside the `parseSTAPA` loop body, phrased as
`captureUnit` on the taken unit. -/
theorem captureUnit_eq_ite (rs : RTSPServer) (rest : List Nat) (n : Nat)
    (hn : 1 ≤ n) :
    (if nalTypeOf (firstByte rest) = NALUTypeSPS then
        if rs.spsReceived then rs
        else { rs with sps := rest.take n, spsReceived := true }
      else if nalTypeOf (firstByte rest) = NALUTypePPS then
        if rs.ppsReceived then rs
        else { rs with pps := rest.take n, ppsReceived := true }
      else rs) = captureUnit rs (rest.take n) := by
  unfold captureUnit
  rw [firstByte_take rest n hn]

theorem parseSTAPA_eq_foldl_aux (n : Nat) : ∀ p : List Nat, p.length ≤ n →
    ∀ rs : RTSPServer, parseSTAPA rs p = (unitsOf p).foldl captureUnit rs := by
  induction n with
  | zero =>
    intro p hp rs
    match p with
    | [] => rw [parseSTAPA.eq_def, unitsOf.eq_def]; rfl
  | succ n ih =>
    intro p hp rs
    match p with
    | [] => rw [parseSTAPA.eq_def, unitsOf.eq_def]; rfl
    | [b] => rw [parseSTAPA.eq_def, unitsOf.eq_def]; rfl
    | b0 :: b1 :: rest =>
      by_cases hstop : rest.length < b0 * 256 + b1 ∨ b0 * 256 + b1 < 1
      · rw [parseSTAPA, unitsOf]
        simp only [if_pos hstop, List.foldl_nil]
      · rw [parseSTAPA, unitsOf]
        simp only [if_neg hstop, List.foldl_cons]
        rw [captureUnit_eq_ite rs rest (b0 * 256 + b1) (by omega)]
        apply ih
        simp only [List.length_drop]
        simp only [List.length_cons] at hp
        omega

/-- `parseSTAPA` is the fold of the per-unit capture step over the complete
units its walk visits. -/
theorem parseSTAPA_eq_foldl (rs : RTSPServer) (p : List Nat) :
    parseSTAPA rs p = (unitsOf p).foldl captureUnit rs :=
  parseSTAPA_eq_foldl_aux p.length p le_rfl rs

/-- Every unit the walk visits is nonempty (declared length at least 1). -/
theorem unitsOf_ne_nil (p : List Nat) : ∀ u ∈ unitsOf p, u ≠ [] := by
  induction p using unitsOf.induct with
  | case1 b0 b1 rest nalSize hstop =>
    rw [unitsOf]
    rw [if_pos hstop]
    simp
  | case2 b0 b1 rest nalSize hstop ih =>
    rw [unitsOf]
    rw [if_neg hstop]
    intro u hu
    rcases List.mem_cons.mp hu with h | h
    · subst h
      intro hnil
      have hlen := congrArg List.length hnil
      simp only [List.length_take, List.length_nil] at hlen
      omega
    · exact ih u h
  | case3 p h =>
    match p, h with
    | [], _ =>
      rw [unitsOf.eq_def]
      simp
    | [b], _ =>
      rw [unitsOf.eq_def]
      simp
    | b0 :: b1 :: rest, h => exact absurd rfl (h b0 b1 rest)

theorem captureUnit_noop_sps (rs : RTSPServer) (u : List Nat)
    (h7 : nalTypeOf (firstByte u) = NALUTypeSPS) (hrec : rs.spsReceived = true) :
    captureUnit rs u = rs := by
  simp [captureUnit, h7, hrec]

theorem captureUnit_noop_pps (rs : RTSPServer) (u : List Nat)
    (h8 : nalTypeOf (firstByte u) = NALUTypePPS) (hrec : rs.ppsReceived = true) :
    captureUnit rs u = rs := by
  have h7 : nalTypeOf (firstByte u) ≠ NALUTypeSPS := by
    rw [h8]; simp [NALUTypeSPS, NALUTypePPS]
  simp [captureUnit, h7, h8, hrec, NALUTypeSPS, NALUTypePPS]

theorem captureUnit_noop_other (rs : RTSPServer) (u : List Nat)
    (h7 : nalTypeOf (firstByte u) ≠ NALUTypeSPS)
    (h8 : nalTypeOf (firstByte u) ≠ NALUTypePPS) :
    captureUnit rs u = rs := by
  simp [captureUnit, h7, h8]

theorem foldl_captureUnit_spsReceived (us : List (List Nat))
    (rs : RTSPServer) :
    (us.foldl captureUnit rs).spsReceived =
      (rs.spsReceived || us.any isSPSUnit) := by
  induction us generalizing rs with
  | nil => simp
  | cons u tail ih =>
    simp only [List.foldl_cons, List.any_cons]
    rw [ih]
    by_cases h7 : nalTypeOf (firstByte u) = NALUTypeSPS
    · by_cases hrec : rs.spsReceived <;>
        simp [captureUnit, h7, hrec, isSPSUnit, NALUTypeSPS, NALUTypePPS]
    · by_cases h8 : nalTypeOf (firstByte u) = NALUTypePPS
      · by_cases hrec : rs.ppsReceived <;>
          simp [captureUnit, h7, h8, hrec, isSPSUnit, NALUTypeSPS, NALUTypePPS]
      · simp [captureUnit, h7, h8, isSPSUnit]

theorem foldl_captureUnit_ppsReceived (us : List (List Nat))
    (rs : RTSPServer) :
    (us.foldl captureUnit rs).ppsReceived =
      (rs.ppsReceived || us.any isPPSUnit) := by
  induction us generalizing rs with
  | nil => simp
  | cons u tail ih =>
    simp only [List.foldl_cons, List.any_cons]
    rw [ih]
    by_cases h7 : nalTypeOf (firstByte u) = NALUTypeSPS
    · have h8 : nalTypeOf (firstByte u) ≠ NALUTypePPS := by
        rw [h7]; simp [NALUTypeSPS, NALUTypePPS]
      by_cases hrec : rs.spsReceived <;>
        simp [captureUnit, h7, h8, hrec, isPPSUnit, NALUTypeSPS, NALUTypePPS]
    · by_cases h8 : nalTypeOf (firstByte u) = NALUTypePPS
      · by_cases hrec : rs.ppsReceived <;>
          simp [captureUnit, h7, h8, hrec, isPPSUnit, NALUTypeSPS, NALUTypePPS]
      · simp [captureUnit, h7, h8, isPPSUnit]

theorem foldl_captureUnit_sps (us : List (List Nat)) (rs : RTSPServer) :
    (us.foldl captureUnit rs).sps =
      (if rs.spsReceived then rs.sps
        else (us.find? isSPSUnit).getD rs.sps) := by
  induction us generalizing rs with
  | nil => simp
  | cons u tail ih =>
    simp only [List.foldl_cons]
    rw [ih]
    by_cases h7 : nalTypeOf (firstByte u) = NALUTypeSPS
    · have hfind : isSPSUnit u = true := by simp [isSPSUnit, h7]
      by_cases hrec : rs.spsReceived <;>
        simp [captureUnit, h7, hrec, List.find?_cons_of_pos _ hfind,
          NALUTypeSPS, NALUTypePPS]
    · have hfind : isSPSUnit u = false := by simp [isSPSUnit, h7]
      rw [List.find?_cons_of_neg _ (by simp [hfind])]
      by_cases h8 : nalTypeOf (firstByte u) = NALUTypePPS
      · by_cases hrec : rs.ppsReceived <;>
          simp [captureUnit, h7, h8, hrec, NALUTypeSPS, NALUTypePPS]
      · simp [captureUnit, h7, h8]

theorem foldl_captureUnit_pps (us : List (List Nat)) (rs : RTSPServer) :
    (us.foldl captureUnit rs).pps =
      (if rs.ppsReceived then rs.pps
        else (us.find? isPPSUnit).getD rs.pps) := by
  induction us generalizing rs with
  | nil => simp
  | cons u tail ih =>
    simp only [List.foldl_cons]
    rw [ih]
    by_cases h8 : nalTypeOf (firstByte u) = NALUTypePPS
    · have h7 : nalTypeOf (firstByte u) ≠ NALUTypeSPS := by
        rw [h8]; simp [NALUTypeSPS, NALUTypePPS]
      have hfind : isPPSUnit u = true := by simp [isPPSUnit, h8]
      by_cases hrec : rs.ppsReceived <;>
        simp [captureUnit, h7, h8, hrec, List.find?_cons_of_pos _ hfind,
          NALUTypeSPS, NALUTypePPS]
    · have hfind : isPPSUnit u = false := by simp [isPPSUnit, h8]
      rw [List.find?_cons_of_neg _ (by simp [hfind])]
      by_cases h7 : nalTypeOf (firstByte u) = NALUTypeSPS
      · by_cases hrec : rs.spsReceived <;>
          simp [captureUnit, h7, h8, hrec, NALUTypeSPS, NALUTypePPS]
      · simp [captureUnit, h7, h8]

/-- Re-folding the same unit list over an already-folded state changes
nothing: the first pass set the received flags for every unit type present. -/
theorem foldl_captureUnit_idem (us : List (List Nat)) (rs : RTSPServer) :
    us.foldl captureUnit (us.foldl captureUnit rs) = us.foldl captureUnit rs := by
  induction us generalizing rs with
  | nil => simp
  | cons u tail ih =>
    simp only [List.foldl_cons]
    have hcap : captureUnit (tail.foldl captureUnit (captureUnit rs u)) u =
        tail.foldl captureUnit (captureUnit rs u) := by
      by_cases h7 : nalTypeOf (firstByte u) = NALUTypeSPS
      · apply captureUnit_noop_sps _ _ h7
        rw [foldl_captureUnit_spsReceived]
        have hone : (captureUnit rs u).spsReceived = true := by
          by_cases hrec : rs.spsReceived <;>
            simp [captureUnit, h7, hrec, NALUTypeSPS, NALUTypePPS]
        simp [hone]
      · by_cases h8 : nalTypeOf (firstByte u) = NALUTypePPS
        · apply captureUnit_noop_pps _ _ h8
          rw [foldl_captureUnit_ppsReceived]
          have hone : (captureUnit rs u).ppsReceived = true := by
            by_cases hrec : rs.ppsReceived <;>
              simp [captureUnit, h7, h8, hrec, NALUTypeSPS, NALUTypePPS]
          simp [hone]
        · exact captureUnit_noop_other _ _ h7 h8
    rw [hcap]
    exact ih (captureUnit rs u)

/-- Dropping the units that are neither SPS- nor PPS-typed does not change
the fold: such units are ignored. -/
theorem foldl_captureUnit_filter (us : List (List Nat)) (rs : RTSPServer) :
    (us.filter fun u => isSPSUnit u || isPPSUnit u).foldl captureUnit rs =
      us.foldl captureUnit rs := by
  induction us generalizing rs with
  | nil => simp
  | cons u tail ih =>
    by_cases hk : (isSPSUnit u || isPPSUnit u) = true
    · rw [List.filter_cons_of_pos (p := fun u => isSPSUnit u || isPPSUnit u) hk]
      simp only [List.foldl_cons]
      exact ih (captureUnit rs u)
    · rw [List.filter_cons_of_neg
        (p := fun u => isSPSUnit u || isPPSUnit u)
        (by simp [Bool.not_eq_true] at hk ⊢; exact hk)]
      simp only [List.foldl_cons]
      have h7 : nalTypeOf (firstByte u) ≠ NALUTypeSPS := by
        intro h
        exact hk (by simp [isSPSUnit, h])
      have h8 : nalTypeOf (firstByte u) ≠ NALUTypePPS := by
        intro h
        exact hk (by simp [isPPSUnit, h])
      rw [captureUnit_noop_other rs u h7 h8]
      exact ih rs

theorem captureUnit_sameNonParams (rs : RTSPServer) (u : List Nat) :
    SameNonParams rs (captureUnit rs u) := by
  by_cases h7 : nalTypeOf (firstByte u) = NALUTypeSPS
  · by_cases hrec : rs.spsReceived <;>
      simp [SameNonParams, captureUnit, h7, hrec, NALUTypeSPS, NALUTypePPS]
  · by_cases h8 : nalTypeOf (firstByte u) = NALUTypePPS
    · by_cases hrec : rs.ppsReceived <;>
        simp [SameNonParams, captureUnit, h7, h8, hrec, NALUTypeSPS, NALUTypePPS]
    · simp [SameNonParams, captureUnit, h7, h8]

theorem foldl_captureUnit_sameNonParams (us : List (List Nat))
    (rs : RTSPServer) : SameNonParams rs (us.foldl captureUnit rs) := by
  induction us generalizing rs with
  | nil => simpa using sameNonParams_refl rs
  | cons u tail ih =>
    simp only [List.foldl_cons]
    exact sameNonParams_trans (captureUnit_sameNonParams rs u)
      (ih (captureUnit rs u))

/-- `parseSTAPA` only touches the captured-parameter fields. -/
theorem parseSTAPA_sameNonParams (rs : RTSPServer) (p : List Nat) :
    SameNonParams rs (parseSTAPA rs p) := by
  rw [parseSTAPA_eq_foldl]
  exact foldl_captureUnit_sameNonParams (unitsOf p) rs

/-- `extractSPSPPS` only touches the captured-parameter fields. -/
theorem extractSPSPPS_sameNonParams (rs : RTSPServer) (p : List Nat) :
    SameNonParams rs (extractSPSPPS rs p) := by
  cases p with
  | nil => simpa [extractSPSPPS] using sameNonParams_refl rs
  | cons b rest =>
    by_cases h7 : nalTypeOf b = NALUTypeSPS
    · by_cases hrec : rs.spsReceived <;>
        simp [SameNonParams, extractSPSPPS, h7, hrec, NALUTypeSPS, NALUTypePPS]
    · by_cases h8 : nalTypeOf b = NALUTypePPS
      · by_cases hrec : rs.ppsReceived <;>
          simp [SameNonParams, extractSPSPPS, h7, h8, hrec, NALUTypeSPS,
            NALUTypePPS]
      · by_cases h24 : nalTypeOf b = 24
        · simp only [extractSPSPPS]
          rw [if_neg h7, if_neg h8, if_pos h24]
          exact parseSTAPA_sameNonParams rs rest
        · simp only [extractSPSPPS]
          rw [if_neg h7, if_neg h8, if_neg h24]
          exact sameNonParams_refl rs

theorem encodeSTAPA_nil : encodeSTAPA [] = [] := by
  simp [encodeSTAPA]

theorem encodeSTAPA_cons (u : List Nat) (us : List (List Nat)) :
    encodeSTAPA (u :: us) =
      u.length / 256 :: u.length % 256 :: (u ++ encodeSTAPA us) := by
  simp [encodeSTAPA, encodeNAL]

/-- On a valid aggregation payload, the walk visits exactly the embedded
units. -/
theorem unitsOf_encodeSTAPA (units : List (List Nat)) (h : ValidUnits units) :
    unitsOf (encodeSTAPA units) = units := by
  induction units with
  | nil =>
    rw [encodeSTAPA_nil, unitsOf.eq_def]
  | cons u us ih =>
    have hu := h u (List.mem_cons_self u us)
    have hrest : ValidUnits us := fun v hv => h v (List.mem_cons_of_mem u hv)
    have hne : 1 ≤ u.length := by
      cases u with
      | nil => exact absurd rfl hu.1
      | cons a t => simp
    have he : u.length / 256 * 256 + u.length % 256 = u.length := by omega
    rw [encodeSTAPA_cons]
    rw [unitsOf]
    rw [he]
    rw [if_neg (by simp only [List.length_append]; omega)]
    rw [List.take_left, List.drop_left]
    rw [ih hrest]

/-- The final captured SPS blob is either the old one or one of the walked
units. -/
theorem foldl_captureUnit_sps_mem (us : List (List Nat)) (rs : RTSPServer) :
    (us.foldl captureUnit rs).sps = rs.sps ∨
      (us.foldl captureUnit rs).sps ∈ us := by
  rw [foldl_captureUnit_sps]
  by_cases hrec : rs.spsReceived
  · simp [hrec]
  · simp only [hrec]
    cases hfind : us.find? isSPSUnit with
    | none => simp
    | some u =>
      right
      simpa using List.mem_of_find?_eq_some hfind

/-- The final captured PPS blob is either the old one or one of the walked
units. -/
theorem foldl_captureUnit_pps_mem (us : List (List Nat)) (rs : RTSPServer) :
    (us.foldl captureUnit rs).pps = rs.pps ∨
      (us.foldl captureUnit rs).pps ∈ us := by
  rw [foldl_captureUnit_pps]
  by_cases hrec : rs.ppsReceived
  · simp [hrec]
  · simp only [hrec]
    cases hfind : us.find? isPPSUnit with
    | none => simp
    | some u =>
      right
      simpa using List.mem_of_find?_eq_some hfind

/-- Every valid unit list yields a valid filtered unit list. -/
theorem validUnits_filter (units : List (List Nat)) (h : ValidUnits units)
    (q : List Nat → Bool) : ValidUnits (units.filter q) :=
  fun u hu => h u (List.mem_of_mem_filter hu)

/-! ### Claims C2, C3, C10 (STAP-A parsing) -/

/-- C2: for every valid aggregation (STAP-A) packet payload, parsing captures
exactly the SPS and PPS configuration blobs present in it — the captured blob
equals the bytes of the first embedded unit of that type (first occurrence
wins; a blob type already received is never re-captured) — all other embedded
units are ignored (filtering them out changes nothing), and re-parsing
identical bytes is idempotent: it changes no state. -/
theorem claim_C2 (rs : RTSPServer) (units : List (List Nat))
    (hv : ValidUnits units) :
    parseSTAPA rs (encodeSTAPA units) = units.foldl captureUnit rs ∧
    (parseSTAPA rs (encodeSTAPA units)).spsReceived =
      (rs.spsReceived || units.any isSPSUnit) ∧
    (parseSTAPA rs (encodeSTAPA units)).sps =
      (if rs.spsReceived then rs.sps
        else (units.find? isSPSUnit).getD rs.sps) ∧
    (parseSTAPA rs (encodeSTAPA units)).ppsReceived =
      (rs.ppsReceived || units.any isPPSUnit) ∧
    (parseSTAPA rs (encodeSTAPA units)).pps =
      (if rs.ppsReceived then rs.pps
        else (units.find? isPPSUnit).getD rs.pps) ∧
    parseSTAPA rs
        (encodeSTAPA (units.filter fun u => isSPSUnit u || isPPSUnit u)) =
      parseSTAPA rs (encodeSTAPA units) ∧
    ∀ q : List Nat, parseSTAPA (parseSTAPA rs q) q = parseSTAPA rs q := by
  have hbase : parseSTAPA rs (encodeSTAPA units) =
      units.foldl captureUnit rs := by
    rw [parseSTAPA_eq_foldl, unitsOf_encodeSTAPA units hv]
  refine ⟨hbase, ?_, ?_, ?_, ?_, ?_, ?_⟩
  · rw [hbase, foldl_captureUnit_spsReceived]
  · rw [hbase, foldl_captureUnit_sps]
  · rw [hbase, foldl_captureUnit_ppsReceived]
  · rw [hbase, foldl_captureUnit_pps]
  · rw [hbase, parseSTAPA_eq_foldl,
      unitsOf_encodeSTAPA _ (validUnits_filter units hv _),
      foldl_captureUnit_filter]
  · intro q
    rw [parseSTAPA_eq_foldl rs q, parseSTAPA_eq_foldl _ q,
      foldl_captureUnit_idem]

/-- Witness for C2 at a concrete valid STAP-A payload containing one SPS
(type 7), one PPS (type 8) and one other unit (type 5). -/
theorem claim_C2_witness :
    (parseSTAPA (NewRTSPServer false)
        (encodeSTAPA [[103, 1], [104, 2], [101, 3]])).sps = [103, 1] ∧
    (parseSTAPA (NewRTSPServer false)
        (encodeSTAPA [[103, 1], [104, 2], [101, 3]])).pps = [104, 2] ∧
    (parseSTAPA (NewRTSPServer false)
        (encodeSTAPA [[103, 1], [104, 2], [101, 3]])).spsReceived = true := by
  have h := claim_C2 (NewRTSPServer false) [[103, 1], [104, 2], [101, 3]]
    (by unfold ValidUnits; decide)
  refine ⟨?_, ?_, ?_⟩
  · rw [h.2.2.1]; decide
  · rw [h.2.2.2.2.1]; decide
  · rw [h.2.1]; decide

/-- C3 counterexample: the malformed payload `[0, 2, 103, 66, 0, 5]` (a
complete 2-byte SPS unit followed by a declared length 5 with 0 bytes
remaining) is NOT skipped for parameter purposes: the SPS unit preceding the
malformed point is captured, contradicting the claim that such a packet
captures nothing. -/
theorem claim_C3_counterexample :
    stapaMalformed [0, 2, 103, 66, 0, 5] = true ∧
    (NewRTSPServer false).spsReceived = false ∧
    (parseSTAPA (NewRTSPServer false) [0, 2, 103, 66, 0, 5]).spsReceived =
      true ∧
    (parseSTAPA (NewRTSPServer false) [0, 2, 103, 66, 0, 5]).sps =
      [103, 66] := by
  refine ⟨?_, rfl, ?_, ?_⟩
  · simp [stapaMalformed.eq_def]
  · simp [parseSTAPA, captureUnit, firstByte, nalTypeOf, NALUTypeSPS,
      NALUTypePPS, NewRTSPServer]
  · simp [parseSTAPA, captureUnit, firstByte, nalTypeOf, NALUTypeSPS,
      NALUTypePPS, NewRTSPServer]

/-- C3 (amended): for every malformed aggregation payload, parsing terminates
without out-of-bounds access and without signalling an error; it equals the
capture-fold over the complete units preceding the malformed point (the
remainder from the malformed point on is skipped); every visited unit is a
complete nonempty declared unit, so any captured blob is either the previous
blob or one of those complete units — never a truncated fragment — and no
field outside the captured parameters changes. -/
theorem claim_C3 (rs : RTSPServer) (p : List Nat)
    (hm : stapaMalformed p = true) :
    parseSTAPA rs p = (unitsOf p).foldl captureUnit rs ∧
    (∀ u ∈ unitsOf p, u ≠ []) ∧
    ((parseSTAPA rs p).sps = rs.sps ∨ (parseSTAPA rs p).sps ∈ unitsOf p) ∧
    ((parseSTAPA rs p).pps = rs.pps ∨ (parseSTAPA rs p).pps ∈ unitsOf p) ∧
    SameNonParams rs (parseSTAPA rs p) := by
  refine ⟨parseSTAPA_eq_foldl rs p, unitsOf_ne_nil p, ?_, ?_,
    parseSTAPA_sameNonParams rs p⟩
  · rw [parseSTAPA_eq_foldl]
    exact foldl_captureUnit_sps_mem _ _
  · rw [parseSTAPA_eq_foldl]
    exact foldl_captureUnit_pps_mem _ _

/-- Witness for C3 (amended) at the concrete malformed payload. -/
theorem claim_C3_witness :
    parseSTAPA (NewRTSPServer false) [0, 2, 103, 66, 0, 5] =
      (unitsOf [0, 2, 103, 66, 0, 5]).foldl captureUnit
        (NewRTSPServer false) ∧
    ((parseSTAPA (NewRTSPServer false) [0, 2, 103, 66, 0, 5]).sps =
        (NewRTSPServer false).sps ∨
      (parseSTAPA (NewRTSPServer false) [0, 2, 103, 66, 0, 5]).sps ∈
        unitsOf [0, 2, 103, 66, 0, 5]) := by
  have h := claim_C3 (NewRTSPServer false) [0, 2, 103, 66, 0, 5]
    (by simp [stapaMalformed.eq_def])
  exact ⟨h.1, h.2.2.1⟩

/-- C10: each iteration of the `parseSTAPA` loop either exits (fewer than 2
bytes remain, declared length zero, or declared length exceeding the
remaining bytes) or recurses on a payload at least 3 bytes shorter (2 length
bytes plus a declared length of at least 1), so the walk terminates on every
input byte sequence. -/
theorem claim_C10 (rs : RTSPServer) (p : List Nat) :
    (p.length < 2 → parseSTAPA rs p = rs) ∧
    ∀ b0 b1 rest, p = b0 :: b1 :: rest →
      (rest.length < b0 * 256 + b1 ∨ b0 * 256 + b1 < 1 →
        parseSTAPA rs p = rs) ∧
      (¬(rest.length < b0 * 256 + b1 ∨ b0 * 256 + b1 < 1) →
        parseSTAPA rs p =
          parseSTAPA (captureUnit rs (rest.take (b0 * 256 + b1)))
            (rest.drop (b0 * 256 + b1)) ∧
        (rest.drop (b0 * 256 + b1)).length + 3 ≤ p.length) := by
  constructor
  · intro hlen
    match p, hlen with
    | [], _ => rw [parseSTAPA.eq_def]
    | [b], _ => rw [parseSTAPA.eq_def]
    | b0 :: b1 :: t, h => exact absurd h (by simp)
  · rintro b0 b1 rest rfl
    constructor
    · intro hstop
      rw [parseSTAPA]
      simp only [if_pos hstop]
    · intro hstop
      constructor
      · rw [parseSTAPA]
        simp only [if_neg hstop, List.foldl_cons]
        rw [captureUnit_eq_ite rs rest (b0 * 256 + b1) (by omega)]
      · simp only [List.length_cons, List.length_drop]
        omega

/-- Witness for C10 at a concrete payload with one 1-byte unit. -/
theorem claim_C10_witness :
    parseSTAPA (NewRTSPServer false) [0, 1, 103] =
      parseSTAPA (captureUnit (NewRTSPServer false) (List.take 1 [103]))
        (List.drop 1 [103]) ∧
    (List.drop 1 ([103] : List Nat)).length + 3 ≤
      ([0, 1, 103] : List Nat).length :=
  ((claim_C10 (NewRTSPServer false) [0, 1, 103]).2 0 1 [103] rfl).2
    (by decide)

/-! ### Lemmas about the packet write paths -/

theorem writeVideo_empty (rs : RTSPServer) (packet : Packet)
    (h : packet.payload.isEmpty = true) :
    WriteVideoPacket rs packet = (rs, none) := by
  simp [WriteVideoPacket, h]

/-- `WriteVideoPacket` on a nonempty payload either stops at the phase-1
state (no forward) or forwards the packet to the snapshot stream and video
media. -/
theorem writeVideo_cases (rs : RTSPServer) (packet : Packet)
    (hne : packet.payload.isEmpty = false) :
    WriteVideoPacket rs packet = (videoPhase1 rs packet.payload, none) ∨
    ∃ st vm, (videoPhase1 rs packet.payload).stream = some st ∧
      (videoPhase1 rs packet.payload).videoMedia = some vm ∧
      (videoPhase1 rs packet.payload).initialized = true ∧
      WriteVideoPacket rs packet =
        ({ videoPhase1 rs packet.payload with
            videoPacketCnt := (videoPhase1 rs packet.payload).videoPacketCnt + 1
            sent := (videoPhase1 rs packet.payload).sent ++
              [{ gen := st.gen, media := vm, packet := packet }] }, none) := by
  rcases hs : (videoPhase1 rs packet.payload).stream with _ | st
  · exact Or.inl (by simp [WriteVideoPacket, hne, hs])
  · rcases hv : (videoPhase1 rs packet.payload).videoMedia with _ | vm
    · exact Or.inl (by simp [WriteVideoPacket, hne, hs, hv])
    · rcases hi : (videoPhase1 rs packet.payload).initialized
      · exact Or.inl (by simp [WriteVideoPacket, hne, hs, hv, hi])
      · exact Or.inr ⟨st, vm, rfl, rfl, rfl,
          by simp [WriteVideoPacket, hne, hs, hv, hi]⟩

/-- `WriteAudioPacket` either is a no-op returning nil or forwards to the
audio media of the live stream. -/
theorem writeAudio_cases (rs : RTSPServer) (packet : Packet) :
    WriteAudioPacket rs packet = (rs, none) ∨
    ∃ st am, rs.stream = some st ∧ rs.audioMedia = some am ∧
      rs.initialized = true ∧
      WriteAudioPacket rs packet =
        ({ rs with
            sent := rs.sent ++
              [{ gen := st.gen, media := am, packet := packet }] }, none) := by
  rcases hs : rs.stream with _ | st
  · exact Or.inl (by simp [WriteAudioPacket, hs])
  · rcases ha : rs.audioMedia with _ | am
    · exact Or.inl (by simp [WriteAudioPacket, hs, ha])
    · rcases hi : rs.initialized
      · exact Or.inl (by simp [WriteAudioPacket, hs, ha, hi])
      · exact Or.inr ⟨st, am, rfl, rfl, rfl,
          by simp [WriteAudioPacket, hs, ha, hi]⟩

theorem writeAudio_of_not_init (rs : RTSPServer) (packet : Packet)
    (h : rs.initialized = false) : WriteAudioPacket rs packet = (rs, none) := by
  rcases hs : rs.stream with _ | st <;>
    rcases ha : rs.audioMedia with _ | am <;>
      simp [WriteAudioPacket, hs, ha, h]

theorem videoPhase1_of_init (rs : RTSPServer) (p : List Nat)
    (h : rs.initialized = true) : videoPhase1 rs p = rs := by
  simp [videoPhase1, h]

theorem videoPhase1_no_flip (rs : RTSPServer) (p : List Nat)
    (h : rs.initialized = false)
    (hflags : ((extractSPSPPS rs p).spsReceived &&
      (extractSPSPPS rs p).ppsReceived) = false) :
    videoPhase1 rs p = extractSPSPPS rs p := by
  simp [videoPhase1, h, hflags]

theorem videoPhase1_flip (rs : RTSPServer) (p : List Nat)
    (h : rs.initialized = false)
    (hsps : (extractSPSPPS rs p).spsReceived = true)
    (hpps : (extractSPSPPS rs p).ppsReceived = true) :
    videoPhase1 rs p = initializeStream (extractSPSPPS rs p) := by
  obtain ⟨e1, e2, e3, e4, e5, e6, e7, e8, e9, e10, e11, e12⟩ :=
    extractSPSPPS_sameNonParams rs p
  have h0 : (extractSPSPPS rs p).initialized = false := by rw [e5, h]
  simp [videoPhase1, h, hsps, hpps, h0]

theorem initializeStream_facts (rs : RTSPServer) :
    (initializeStream rs).initialized = true ∧
    (initializeStream rs).nextGen = rs.nextGen + 1 ∧
    (initializeStream rs).sent = rs.sent ∧
    ∃ st, (initializeStream rs).stream = some st ∧ st.gen = rs.nextGen :=
  ⟨rfl, rfl, rfl, ⟨_, rfl, rfl⟩⟩

/-! ### Generation avoidance: packets of an old cycle's stream -/

/-- The generation `g` is dead for `rs`: it is below the allocator and not the
live stream's generation, so no future write can use it. -/
def GenAvoid (g : Nat) (rs : RTSPServer) : Prop :=
  g < rs.nextGen ∧ ∀ st, rs.stream = some st → st.gen ≠ g

theorem genAvoid_videoPhase1 (g : Nat) (rs : RTSPServer) (p : List Nat)
    (h : GenAvoid g rs) :
    GenAvoid g (videoPhase1 rs p) ∧ (videoPhase1 rs p).sent = rs.sent := by
  by_cases hi : rs.initialized = true
  · rw [videoPhase1_of_init rs p hi]
    exact ⟨h, rfl⟩
  · have hi' : rs.initialized = false := by simpa using hi
    obtain ⟨e1, e2, e3, e4, e5, e6, e7, e8, e9, e10, e11, e12⟩ :=
      extractSPSPPS_sameNonParams rs p
    by_cases hflags : ((extractSPSPPS rs p).spsReceived &&
        (extractSPSPPS rs p).ppsReceived) = true
    · obtain ⟨hsps, hpps⟩ := by simpa [Bool.and_eq_true] using hflags
      rw [videoPhase1_flip rs p hi' hsps hpps]
      obtain ⟨hii, hnn, hss, st, hst, hgen⟩ :=
        initializeStream_facts (extractSPSPPS rs p)
      refine ⟨⟨?_, ?_⟩, ?_⟩
      · rw [hnn, e10]
        exact Nat.lt_succ_of_lt h.1
      · intro st' hst'
        rw [hst] at hst'
        cases hst'
        rw [hgen, e10]
        have := h.1
        omega
      · rw [hss, e12]
    · have hflags' : ((extractSPSPPS rs p).spsReceived &&
          (extractSPSPPS rs p).ppsReceived) = false := by
        simpa using hflags
      rw [videoPhase1_no_flip rs p hi' hflags']
      refine ⟨⟨?_, ?_⟩, e12⟩
      · rw [e10]
        exact h.1
      · intro st hst
        rw [e1] at hst
        exact h.2 st hst

theorem writeVideo_avoid (g : Nat) (rs : RTSPServer) (packet : Packet)
    (h : GenAvoid g rs) :
    GenAvoid g (WriteVideoPacket rs packet).1 ∧
    ∀ e ∈ (WriteVideoPacket rs packet).1.sent, e ∈ rs.sent ∨ e.gen ≠ g := by
  by_cases hemp : packet.payload.isEmpty = true
  · rw [writeVideo_empty rs packet hemp]
    exact ⟨h, fun e he => Or.inl he⟩
  · have hne : packet.payload.isEmpty = false := by simpa using hemp
    obtain ⟨hA, hS⟩ := genAvoid_videoPhase1 g rs packet.payload h
    rcases writeVideo_cases rs packet hne with heq | ⟨st, vm, hst, hvm, hi, heq⟩
    · rw [heq]
      exact ⟨hA, fun e he => Or.inl (hS ▸ he)⟩
    · rw [heq]
      refine ⟨⟨hA.1, fun st' hst' => hA.2 st' hst'⟩, ?_⟩
      intro e he
      rcases List.mem_append.mp he with h1 | h1
      · exact Or.inl (hS ▸ h1)
      · right
        have he2 : e = { gen := st.gen, media := vm, packet := packet } := by
          simpa using h1
        rw [he2]
        exact hA.2 st hst

theorem writeAudio_avoid (g : Nat) (rs : RTSPServer) (packet : Packet)
    (h : GenAvoid g rs) :
    GenAvoid g (WriteAudioPacket rs packet).1 ∧
    ∀ e ∈ (WriteAudioPacket rs packet).1.sent, e ∈ rs.sent ∨ e.gen ≠ g := by
  rcases writeAudio_cases rs packet with heq | ⟨st, am, hst, ham, hi, heq⟩
  · rw [heq]
    exact ⟨h, fun e he => Or.inl he⟩
  · rw [heq]
    refine ⟨⟨h.1, fun st' hst' => h.2 st' hst'⟩, ?_⟩
    intro e he
    rcases List.mem_append.mp he with h1 | h1
    · exact Or.inl h1
    · right
      have he2 : e = { gen := st.gen, media := am, packet := packet } := by
        simpa using h1
      rw [he2]
      exact h.2 st hst

theorem initStream_avoid (g : Nat) (rs : RTSPServer) (v a : Nat)
    (h : GenAvoid g rs) :
    GenAvoid g (InitStream rs v a) ∧ (InitStream rs v a).sent = rs.sent := by
  by_cases hi : rs.initialized = true
  · refine ⟨⟨?_, ?_⟩, ?_⟩
    · simpa [InitStream, hi] using h.1
    · intro st hst
      simp [InitStream, hi] at hst
    · simp [InitStream, hi]
  · have hi' : rs.initialized = false := by simpa using hi
    refine ⟨⟨?_, ?_⟩, ?_⟩
    · simpa [InitStream, hi'] using h.1
    · intro st hst
      simp only [InitStream, hi'] at hst
      exact h.2 st (by simpa using hst)
    · simp [InitStream, hi']

theorem stepOp_avoid (g : Nat) (rs : RTSPServer) (op : Op)
    (h : GenAvoid g rs) :
    GenAvoid g (stepOp rs op) ∧
    ∀ e ∈ (stepOp rs op).sent, e ∈ rs.sent ∨ e.gen ≠ g := by
  cases op with
  | initStream v a =>
    obtain ⟨h1, h2⟩ := initStream_avoid g rs v a h
    exact ⟨h1, fun e he => Or.inl (h2 ▸ he)⟩
  | writeVideo p => exact writeVideo_avoid g rs p h
  | writeAudio p => exact writeAudio_avoid g rs p h

theorem runOps_avoid (g : Nat) (ops : List Op) : ∀ rs : RTSPServer,
    GenAvoid g rs →
    GenAvoid g (runOps rs ops) ∧
    ∀ e ∈ (runOps rs ops).sent, e ∈ rs.sent ∨ e.gen ≠ g := by
  induction ops with
  | nil =>
    intro rs h
    exact ⟨h, fun e he => Or.inl he⟩
  | cons op tl ih =>
    intro rs h
    obtain ⟨h1, h2⟩ := stepOp_avoid g rs op h
    obtain ⟨h3, h4⟩ := ih (stepOp rs op) h1
    simp only [runOps, List.foldl_cons] at h3 h4 ⊢
    refine ⟨h3, ?_⟩
    intro e he
    rcases h4 e he with h5 | h5
    · exact h2 e h5
    · exact Or.inr h5

/-! ### Claim C5 (InitStream teardown) -/

/-- C5: calling `InitStream` on an Initialized session tears the previous
cycle down — the published stream is closed (its generation recorded in the
ghost close log) and discarded, the captured blobs and their flags are
cleared, the packet counter is reset, the state is AwaitingParameters (not
Initialized) with the new payload types stored — and no packet written by any
later sequence of operations is ever forwarded under the old cycle's stream
generation. -/
theorem claim_C5 (rs : RTSPServer) (st : ServerStream) (v a : Nat)
    (hInv : GenInv rs) (hInit : rs.initialized = true)
    (hstream : rs.stream = some st) :
    (InitStream rs v a).stream = none ∧
    (InitStream rs v a).initialized = false ∧
    (InitStream rs v a).spsReceived = false ∧
    (InitStream rs v a).ppsReceived = false ∧
    (InitStream rs v a).sps = [] ∧
    (InitStream rs v a).pps = [] ∧
    (InitStream rs v a).videoPacketCnt = 0 ∧
    (InitStream rs v a).closed = rs.closed ++ [st.gen] ∧
    (InitStream rs v a).videoPayload = v ∧
    (InitStream rs v a).audioPayload = a ∧
    ∀ ops : List Op, ∀ e ∈ (runOps (InitStream rs v a) ops).sent,
      e ∈ rs.sent ∨ e.gen ≠ st.gen := by
  have hg : GenAvoid st.gen (InitStream rs v a) := by
    constructor
    · have hlt := hInv.2 st hstream
      simpa [InitStream, hInit] using hlt
    · intro st' hst'
      simp [InitStream, hInit] at hst'
  have hsent : (InitStream rs v a).sent = rs.sent := by
    simp [InitStream, hInit]
  refine ⟨by simp [InitStream, hInit], by simp [InitStream, hInit],
    by simp [InitStream, hInit], by simp [InitStream, hInit],
    by simp [InitStream, hInit], by simp [InitStream, hInit],
    by simp [InitStream, hInit], by simp [InitStream, hInit, hstream],
    by simp [InitStream, hInit], by simp [InitStream, hInit], ?_⟩
  intro ops e he
  rcases (runOps_avoid st.gen ops (InitStream rs v a) hg).2 e he with h1 | h1
  · exact Or.inl (hsent ▸ h1)
  · exact Or.inr h1

/-- Concrete published video media (payload type 96, SPS `[103]`,
PPS `[104]`). -/
def vmPub : Media :=
  { type := MediaType.video
    formats := [Format.h264
      { payloadTyp := 96, packetizationMode := 1, sps := [103], pps := [104] }] }

/-- Concrete published audio media (payload type 111). -/
def amPub : Media :=
  { type := MediaType.audio
    formats := [Format.opus { payloadTyp := 111, channelCount := 2 }] }

/-- Concrete published session description. -/
def descPub : SessionDesc := { medias := [vmPub, amPub] }

/-- A concrete published server state (the state after `InitStream(96,111)`
followed by an SPS `[103]` and a PPS `[104]` video packet). -/
def rsPub : RTSPServer :=
  { stream := some { gen := 0, desc := descPub }
    videoMedia := some vmPub
    audioMedia := some amPub
    videoFormat := some
      { payloadTyp := 96, packetizationMode := 1, sps := [103], pps := [104] }
    initialized := true
    videoPayload := 96
    audioPayload := 111
    sps := [103]
    pps := [104]
    spsReceived := true
    ppsReceived := true
    debug := false
    videoPacketCnt := 1
    nextGen := 1
    closed := []
    sent := [{ gen := 0, media := vmPub, packet := { payload := [104] } }] }

/-- Witness for C5 at the concrete published state, running a further
SPS/PPS/frame write sequence after the reset. -/
theorem claim_C5_witness :
    (InitStream rsPub 97 112).stream = none ∧
    (InitStream rsPub 97 112).initialized = false ∧
    (InitStream rsPub 97 112).closed = rsPub.closed ++ [0] ∧
    ∀ e ∈ (runOps (InitStream rsPub 97 112)
        [Op.writeVideo { payload := [103] }, Op.writeVideo { payload := [104] },
          Op.writeVideo { payload := [101] }]).sent,
      e ∈ rsPub.sent ∨ e.gen ≠ 0 := by
  have hInv : GenInv rsPub := by
    constructor
    · intro e he
      simp [rsPub] at he
      rw [he]
      decide
    · intro st hst
      simp [rsPub] at hst
      rw [← hst]
      decide
  have h := claim_C5 rsPub { gen := 0, desc := descPub } 97 112 hInv rfl rfl
  exact ⟨h.1, h.2.1, h.2.2.2.2.2.2.2.1,
    h.2.2.2.2.2.2.2.2.2.2 [Op.writeVideo { payload := [103] },
      Op.writeVideo { payload := [104] }, Op.writeVideo { payload := [101] }]⟩

/-! ### Claims C1, C4, C9 (write paths) -/

/-- The video media descriptor `initializeStream` builds from the captured
payload type and blobs. -/
def builtVideoMedia (vpt : Nat) (sps pps : List Nat) : Media :=
  { type := MediaType.video
    formats := [Format.h264
      { payloadTyp := vpt, packetizationMode := 1, sps := sps, pps := pps }] }

/-- C1: from an uninitialized cycle after `InitStream(96,111)`, writing an
SPS packet leaves the session unpublished with nothing forwarded; writing the
PPS packet next makes the session published (Initialized) exactly then; a
frame packet written afterwards is forwarded to the published video medium
(built from the captured blobs, stream generation 0); and a frame packet
written before both blobs are captured (at either earlier point) is dropped —
nothing is ever forwarded downstream there. -/
theorem claim_C1 (debug : Bool) (spsP ppsP frameP : List Nat)
    (hs : IsSPSNAL spsP) (hp : IsPPSNAL ppsP) (hf : IsFrameNAL frameP)
    (rs1 rs2 rs3 : RTSPServer)
    (h1 : rs1 = InitStream (NewRTSPServer debug) 96 111)
    (h2 : rs2 = (WriteVideoPacket rs1 { payload := spsP }).1)
    (h3 : rs3 = (WriteVideoPacket rs2 { payload := ppsP }).1) :
    rs2.initialized = false ∧
    rs2.sent = [] ∧
    rs3.initialized = true ∧
    rs3.videoMedia = some (builtVideoMedia 96 spsP ppsP) ∧
    (WriteVideoPacket rs3 { payload := frameP }).1.sent =
      rs3.sent ++ [{ gen := 0
                     media := builtVideoMedia 96 spsP ppsP
                     packet := { payload := frameP } }] ∧
    (WriteVideoPacket rs1 { payload := frameP }).1.sent = [] ∧
    (WriteVideoPacket rs2 { payload := frameP }).1.sent = [] := by
  subst h3 h2 h1
  obtain ⟨hsn, hst⟩ := hs
  obtain ⟨hpn, hpt⟩ := hp
  obtain ⟨hfn, hft1, hft2, hft3⟩ := hf
  rcases spsP with _ | ⟨bs, ts⟩
  · exact absurd rfl hsn
  rcases ppsP with _ | ⟨bp, tp⟩
  · exact absurd rfl hpn
  rcases frameP with _ | ⟨bf, tf⟩
  · exact absurd rfl hfn
  simp only [firstByte, List.headD_cons, NALUTypeSPS, NALUTypePPS]
    at hst hpt hft1 hft2 hft3
  refine ⟨?_, ?_, ?_, ?_, ?_, ?_, ?_⟩ <;>
    simp [WriteVideoPacket, videoPhase1, extractSPSPPS, initializeStream,
      InitStream, NewRTSPServer, builtVideoMedia, NALUTypeSPS, NALUTypePPS,
      hst, hpt, hft1, hft2, hft3]

/-- Concrete state after `InitStream(96,111)` on a fresh server. -/
def rsW1 : RTSPServer := InitStream (NewRTSPServer false) 96 111

/-- Concrete state after additionally writing SPS packet `[103]`. -/
def rsW2 : RTSPServer := (WriteVideoPacket rsW1 { payload := [103] }).1

/-- Concrete state after additionally writing PPS packet `[104]`. -/
def rsW3 : RTSPServer := (WriteVideoPacket rsW2 { payload := [104] }).1

/-- Witness for C1 at SPS `[103]`, PPS `[104]`, frame `[101]`. -/
theorem claim_C1_witness :
    rsW2.initialized = false ∧
    rsW2.sent = [] ∧
    rsW3.initialized = true ∧
    rsW3.videoMedia = some (builtVideoMedia 96 [103] [104]) ∧
    (WriteVideoPacket rsW3 { payload := [101] }).1.sent =
      rsW3.sent ++ [{ gen := 0
                      media := builtVideoMedia 96 [103] [104]
                      packet := { payload := [101] } }] ∧
    (WriteVideoPacket rsW1 { payload := [101] }).1.sent = [] ∧
    (WriteVideoPacket rsW2 { payload := [101] }).1.sent = [] :=
  claim_C1 false [103] [104] [101]
    (by unfold IsSPSNAL; decide) (by unfold IsPPSNAL; decide)
    (by unfold IsFrameNAL; decide) rsW1 rsW2 rsW3 rfl rfl rfl

/-- C4 counterexample: the state after `InitStream(96,111)` and an SPS packet
has not reached Initialized, yet `WriteVideoPacket` of the PPS packet `[104]`
from that state forwards a packet downstream (the call completes
initialization mid-call and forwards), so the claim's "forwards no packet in
every non-Initialized state" is false. -/
theorem claim_C4_counterexample :
    rsW2.initialized = false ∧
    (WriteVideoPacket rsW2 { payload := [104] }).1.sent ≠ [] := by
  constructor
  · decide
  · decide

/-- C4 (amended): in every state that has not reached Initialized,
`WriteAudioPacket` forwards nothing, changes nothing, and returns nil; and
`WriteVideoPacket` forwards nothing, stays un-Initialized, and returns nil —
unless the call itself completes initialization (captures the missing blobs),
in which case the session is Initialized when the call returns (and only then
may the packet be forwarded). -/
theorem claim_C4 (rs : RTSPServer) (packet : Packet)
    (hInit : rs.initialized = false) :
    WriteAudioPacket rs packet = (rs, none) ∧
    (completesInit rs packet.payload = false →
      (WriteVideoPacket rs packet).1.sent = rs.sent ∧
      (WriteVideoPacket rs packet).1.initialized = false ∧
      (WriteVideoPacket rs packet).2 = none) ∧
    (completesInit rs packet.payload = true →
      (WriteVideoPacket rs packet).1.initialized = true) := by
  refine ⟨writeAudio_of_not_init rs packet hInit, ?_, ?_⟩
  · intro hc
    by_cases hemp : packet.payload.isEmpty = true
    · rw [writeVideo_empty rs packet hemp]
      exact ⟨rfl, hInit, rfl⟩
    · have hne : packet.payload.isEmpty = false := by simpa using hemp
      have hflags : ((extractSPSPPS rs packet.payload).spsReceived &&
          (extractSPSPPS rs packet.payload).ppsReceived) = false := by
        simpa [completesInit, hne] using hc
      have hphase := videoPhase1_no_flip rs packet.payload hInit hflags
      obtain ⟨e1, e2, e3, e4, e5, e6, e7, e8, e9, e10, e11, e12⟩ :=
        extractSPSPPS_sameNonParams rs packet.payload
      have hpi : (videoPhase1 rs packet.payload).initialized = false := by
        rw [hphase, e5, hInit]
      rcases writeVideo_cases rs packet hne with heq | ⟨st, vm, hst, hvm, hi, heq⟩
      · rw [heq]
        exact ⟨by rw [hphase, e12], hpi, rfl⟩
      · rw [hpi] at hi
        cases hi
  · intro hc
    have hne : packet.payload.isEmpty = false := by
      rcases h : packet.payload.isEmpty with _ | _
      · rfl
      · rw [completesInit, h] at hc
        simp at hc
    obtain ⟨hsps, hpps⟩ : (extractSPSPPS rs packet.payload).spsReceived = true ∧
        (extractSPSPPS rs packet.payload).ppsReceived = true := by
      have := hc
      rw [completesInit, hne] at this
      simpa using this
    have hphase := videoPhase1_flip rs packet.payload hInit hsps hpps
    have hpi : (videoPhase1 rs packet.payload).initialized = true := by
      rw [hphase]
      exact (initializeStream_facts _).1
    rcases writeVideo_cases rs packet hne with heq | ⟨st, vm, hst, hvm, hi, heq⟩
    · rw [heq]
      exact hpi
    · rw [heq]
      exact hpi

/-- Witness for C4 at the fresh server and a frame packet (which cannot
complete initialization). -/
theorem claim_C4_witness :
    WriteAudioPacket (NewRTSPServer false) { payload := [101] } =
      (NewRTSPServer false, none) ∧
    (WriteVideoPacket (NewRTSPServer false) { payload := [101] }).1.sent =
      (NewRTSPServer false).sent ∧
    (WriteVideoPacket (NewRTSPServer false) { payload := [101] }).2 = none := by
  have h := claim_C4 (NewRTSPServer false) { payload := [101] } rfl
  have h2 := h.2.1 (by decide)
  exact ⟨h.1, h2.1, h2.2.2⟩

/-- C9: when the previous cycle never reached Initialized, `InitStream` only
stores the payload types — the captured blobs `sps`, `pps` and their received
flags (and every other field) are left unchanged — so a blob captured in the
aborted cycle persists: if SPS was already received, one PPS packet after the
new `InitStream` completes initialization. -/
theorem claim_C9 (rs : RTSPServer) (v a : Nat)
    (hInit : rs.initialized = false) :
    InitStream rs v a = { rs with videoPayload := v, audioPayload := a } ∧
    ∀ p : List Nat, IsPPSNAL p → rs.spsReceived = true →
      (WriteVideoPacket (InitStream rs v a) { payload := p }).1.initialized =
        true := by
  have he : InitStream rs v a =
      { rs with videoPayload := v, audioPayload := a } := by
    simp [InitStream, hInit]
  refine ⟨he, ?_⟩
  intro p hpps hsps
  rw [he]
  obtain ⟨hpn, hpt⟩ := hpps
  rcases p with _ | ⟨b, t⟩
  · exact absurd rfl hpn
  simp only [firstByte, List.headD_cons, NALUTypeSPS, NALUTypePPS] at hpt
  by_cases hpr : rs.ppsReceived = true <;>
    simp [WriteVideoPacket, videoPhase1, extractSPSPPS, initializeStream,
      NALUTypeSPS, NALUTypePPS, hInit, hsps, hpt, hpr]

/-- Concrete non-completed-cycle state: fresh server that has already
captured an SPS blob. -/
def rsC9 : RTSPServer :=
  { NewRTSPServer false with spsReceived := true, sps := [103] }

/-- Witness for C9 at the concrete aborted-cycle state and PPS `[104]`. -/
theorem claim_C9_witness :
    InitStream rsC9 96 111 =
      { rsC9 with videoPayload := 96, audioPayload := 111 } ∧
    (WriteVideoPacket (InitStream rsC9 96 111)
        { payload := [104] }).1.initialized = true := by
  have h := claim_C9 rsC9 96 111 rfl
  exact ⟨h.1, h.2 [104] (by unfold IsPPSNAL; decide) rfl⟩

/-! ### Claims C6, C7, C8 (responders, signaling, track handler) -/

/-- C6 counterexample: on the fresh (unpublished) server, a play request is
answered with ok, not the not-found the claim requires for every
describe/setup/play/pause/record request while unpublished (the same holds
for pause and record). -/
theorem claim_C6_counterexample :
    (NewRTSPServer false).initialized = false ∧
    (NewRTSPServer false).stream = none ∧
    (OnPlay (NewRTSPServer false)).1 ≠ StatusCode.statusNotFound ∧
    OnPlay (NewRTSPServer false) = (StatusCode.statusOK, none) ∧
    OnPause (NewRTSPServer false) = (StatusCode.statusOK, none) ∧
    OnRecord (NewRTSPServer false) = (StatusCode.statusOK, none) := by
  refine ⟨rfl, rfl, ?_, rfl, rfl, rfl⟩
  decide

/-- C6 (amended): describe and setup requests receive not-found while no
session is published and ok (with the published stream) once one is; play,
pause and record requests are always answered ok, regardless of publication
state. -/
theorem claim_C6 (rs : RTSPServer) :
    ((¬rs.initialized = true ∨ rs.stream = none) →
      OnDescribe rs = (StatusCode.statusNotFound, none, none) ∧
      OnSetup rs = (StatusCode.statusNotFound, none, none)) ∧
    (rs.initialized = true → ∀ st, rs.stream = some st →
      OnDescribe rs = (StatusCode.statusOK, some st, none) ∧
      OnSetup rs = (StatusCode.statusOK, some st, none)) ∧
    OnPlay rs = (StatusCode.statusOK, none) ∧
    OnPause rs = (StatusCode.statusOK, none) ∧
    OnRecord rs = (StatusCode.statusOK, none) := by
  refine ⟨?_, ?_, rfl, rfl, rfl⟩
  · intro h
    constructor
    · unfold OnDescribe
      rw [if_pos h]
    · unfold OnSetup
      rw [if_pos h]
  · intro hi st hst
    have hcond : ¬(¬rs.initialized = true ∨ rs.stream = none) := by
      simp [hi, hst]
    constructor
    · unfold OnDescribe
      rw [if_neg hcond, hst]
    · unfold OnSetup
      rw [if_neg hcond, hst]

/-- Witness for C6: not-found on the fresh server, ok with the stream on the
published server, ok for play on the fresh server. -/
theorem claim_C6_witness :
    OnDescribe (NewRTSPServer false) =
      (StatusCode.statusNotFound, none, none) ∧
    OnSetup (NewRTSPServer false) = (StatusCode.statusNotFound, none, none) ∧
    OnDescribe rsPub =
      (StatusCode.statusOK, some { gen := 0, desc := descPub }, none) ∧
    OnPlay (NewRTSPServer false) = (StatusCode.statusOK, none) := by
  have h1 := (claim_C6 (NewRTSPServer false)).1 (Or.inl (by decide))
  have h2 := (claim_C6 rsPub).2.1 rfl { gen := 0, desc := descPub } rfl
  exact ⟨h1.1, h1.2, h2.1, (claim_C6 (NewRTSPServer false)).2.2.1⟩

/-- C7: with both handlers registered, an offer message invokes the offer
handler and, on success, writes exactly one answer reply carrying the
returned SDP; on handler failure no reply is written and the loop simply
continues to the next message; a candidate message is forwarded verbatim to
the candidate handler with no reply; any other message type invokes no
handler and writes no reply. -/
theorem claim_C7 (hO : String → Option String) (hI : String → Option Unit)
    (msg : SignalMessage) :
    (msg.type = "offer" →
      (∀ ans, hO msg.sdp = some ans →
        handleSignalMessage (some hO) (some hI) msg =
          ([{ type := "answer", sdp := ans }], [msg.sdp], [])) ∧
      (hO msg.sdp = none →
        handleSignalMessage (some hO) (some hI) msg = ([], [msg.sdp], []))) ∧
    (msg.type = "candidate" →
      handleSignalMessage (some hO) (some hI) msg =
        ([], [], [msg.candidate])) ∧
    (msg.type ≠ "offer" → msg.type ≠ "candidate" →
      handleSignalMessage (some hO) (some hI) msg = ([], [], [])) := by
  refine ⟨?_, ?_, ?_⟩
  · intro ht
    constructor
    · intro ans hans
      simp [handleSignalMessage, ht, hans]
    · intro hans
      simp [handleSignalMessage, ht, hans]
  · intro ht
    simp [handleSignalMessage, ht]
  · intro h1 h2
    simp [handleSignalMessage, h1, h2]

/-- Witness for C7 at a successful offer and a candidate message. -/
theorem claim_C7_witness :
    handleSignalMessage (some fun s => some (s ++ "a"))
        (some fun _ => some ()) { type := "offer", sdp := "o" } =
      ([{ type := "answer", sdp := "oa" }], ["o"], []) ∧
    handleSignalMessage (some fun s => some (s ++ "a"))
        (some fun _ => some ()) { type := "candidate", candidate := "c" } =
      ([], [], ["c"]) := by
  have h1 := (claim_C7 (fun s => some (s ++ "a")) (fun _ => some ())
    { type := "offer", sdp := "o" }).1 rfl
  have h2 := (claim_C7 (fun s => some (s ++ "a")) (fun _ => some ())
    { type := "candidate", candidate := "c" }).2.1 rfl
  exact ⟨h1.1 "oa" rfl, h2⟩

/-- C8: when a video track arrives and no audio track has arrived in the
current pair, the stream is initialized with the fixed fallback audio payload
type 111; when the audio track arrived first, its actual payload type is used
instead. -/
theorem claim_C8 (ts : TrackState) (rs : RTSPServer) (vpt apt : Nat)
    (hv : ts.hasVideo = false) (ha : ts.hasAudio = false) :
    (trackCallback ts rs { kind := TrackKind.video, payloadType := vpt }).2 =
      InitStream rs vpt 111 ∧
    (trackCallback ts rs
        { kind := TrackKind.video, payloadType := vpt }).2.audioPayload =
      111 ∧
    (trackCallback ts rs
        { kind := TrackKind.video, payloadType := vpt }).2.videoPayload =
      vpt ∧
    (trackCallback ts rs { kind := TrackKind.audio, payloadType := apt }).2 =
      rs ∧
    (trackCallback
        (trackCallback ts rs { kind := TrackKind.audio, payloadType := apt }).1
        rs { kind := TrackKind.video, payloadType := vpt }).2 =
      InitStream rs vpt apt := by
  refine ⟨?_, ?_, ?_, ?_, ?_⟩ <;>
    simp [trackCallback, hv, ha, InitStream]

/-- Witness for C8 from the initial track-pair state with video payload 96
and audio payload 105. -/
theorem claim_C8_witness :
    (trackCallback initialTrackState (NewRTSPServer false)
        { kind := TrackKind.video, payloadType := 96 }).2 =
      InitStream (NewRTSPServer false) 96 111 ∧
    (trackCallback
        (trackCallback initialTrackState (NewRTSPServer false)
          { kind := TrackKind.audio, payloadType := 105 }).1
        (NewRTSPServer false)
        { kind := TrackKind.video, payloadType := 96 }).2 =
      InitStream (NewRTSPServer false) 96 105 := by
  have h := claim_C8 initialTrackState (NewRTSPServer false) 96 105 rfl rfl
  exact ⟨h.1, h.2.2.2.2⟩

end Camcast
